import Mathlib

/-!
Verification development for the authenticated RPC client layer in
`flytekit/clients/raw.py`: the credential store, the four auth
strategies, the strategy selector, and the failure-classifier/retry
wrapper `_handle_rpc_error`.

Shallow embedding conventions:
- gRPC status codes become the inductive `StatusCode`; an `RpcError`
  raised by a stub becomes an `Except RpcErr` value.
- Python exceptions escaping a modelled function become `Except PyError`;
  raising leaves the client state untouched, which the `Except` encoding
  captures by not producing a new state on the error branch.
- External collaborators (the gRPC stub, the HTTP token endpoint, the
  interactive authorization client, the external token command, and the
  configuration objects read via `.get()`) are passed in as explicit
  function or value parameters.
- The successive results of re-invoking the wrapped RPC are modelled as a
  `script : Nat → Except RpcErr α` indexed by the attempt number, and the
  observable effects of one wrapped call (underlying invocations, refresh
  handler invocations, backoff sleeps) are collected in a `Trace`.
-/

namespace FlytekitRaw

/-- The gRPC status codes distinguished by `_handle_rpc_error`, plus a few
representative other codes (`INVALID_ARGUMENT`, `INTERNAL`, `UNAVAILABLE`)
standing for the "any other code" branch. -/
inductive StatusCode
  | UNAUTHENTICATED
  | ALREADY_EXISTS
  | NOT_FOUND
  | INVALID_ARGUMENT
  | INTERNAL
  | UNAVAILABLE
  deriving DecidableEq, Repr

/-- A `grpc.RpcError`: its status code `e.code()` and its `str(e)` text. -/
structure RpcErr where
  code : StatusCode
  message : String
  deriving DecidableEq, Repr

/-- Python exceptions that the modelled functions can raise. -/
inductive PyError
  | attributeError (msg : String)
  | valueError (msg : String)
  | flyteAuthenticationException (msg : String)
  deriving DecidableEq, Repr

/-- `auth_pb2.PublicClientAuthConfigResponse`, as used by the strategies.
Proto string fields default to the empty string; `scopes` is a repeated
string field. -/
structure PublicClientConfig where
  authorization_metadata_key : String
  redirect_uri : String
  client_id : String
  scopes : List String
  deriving DecidableEq, Repr

/-- `auth_pb2.OAuth2MetadataResponse`, as used by the strategies. -/
structure OAuth2Metadata where
  authorization_endpoint : String
  token_endpoint : String
  deriving DecidableEq, Repr

/-- The mutable state of a `RawSynchronousFlyteClient`:
`_public_client_config` and `_oauth2_metadata` (each `None` when the
construction-time fetch failed), and `_metadata`.  In Python `_metadata`
is `None` or a one-element list holding a single
`(header_key, "Bearer <token>")` pair, where the header key itself can be
`None` (the strategies pass `authorization_metadata_key or None`); it is
modelled as an optional single pair with an optional key. -/
structure ClientState where
  public_client_config : Option PublicClientConfig
  oauth2_metadata : Option OAuth2Metadata
  metadata : Option (Option String × String)
  deriving DecidableEq, Repr

/-- `RawSynchronousFlyteClient.set_access_token`: overwrites `_metadata`
with the single pair `(authorization_header_key, "Bearer " + access_token)`.
The Python default for `authorization_header_key` is the string
`"authorization"`; callers that rely on the default pass `some "authorization"`
here.  Note the source stores the key exactly as given (it does not
lower-case it, despite the comment above it). -/
def set_access_token (flyte_client : ClientState) (access_token : String)
    (authorization_header_key : Option String) : ClientState :=
  { flyte_client with
      metadata := some (authorization_header_key, "Bearer " ++ access_token) }

/-- Python `str.replace(old, new)` scanning for a non-empty pattern
`p :: ps`: replace each non-overlapping occurrence, left to right, by
`rep`.  `skip` counts the pattern characters still to be consumed after a
match has been emitted, so scanning resumes right after the matched
occurrence. -/
def replaceSkip (p : Char) (ps rep : List Char) : Nat → List Char → List Char
  | _, [] => []
  | skip + 1, _ :: cs => replaceSkip p ps rep skip cs
  | 0, c :: cs =>
    if (p :: ps).isPrefixOf (c :: cs) then
      rep ++ replaceSkip p ps rep ps.length cs
    else
      c :: replaceSkip p ps rep 0 cs

/-- Python `s.replace(pat, rep)` for the non-empty patterns used by the
source (the source only ever calls it with pattern `"Bearer "`). -/
def pyReplace (s pat rep : String) : String :=
  match pat.data with
  | [] => s
  | p :: ps => String.mk (replaceSkip p ps rep.data 0 s.data)

/-- Whether `pat` occurs as a contiguous sublist of `s`. -/
def containsSub (pat : List Char) : List Char → Bool
  | [] => pat.isEmpty
  | c :: cs => pat.isPrefixOf (c :: cs) || containsSub pat cs

/-- Whether the string `pat` occurs as a substring of `s`. -/
def hasSub (s pat : String) : Bool := containsSub pat.data s.data

/-- `RawSynchronousFlyteClient.check_access_token`: `False` when
`_metadata` is `None`, else compares the candidate with
`_metadata[0][1].replace("Bearer ", "")` (which removes every occurrence
of `"Bearer "`, not only the leading one). -/
def check_access_token (flyte_client : ClientState) (access_token : String) : Bool :=
  match flyte_client.metadata with
  | none => false
  | some md => access_token == pyReplace md.2 "Bearer " ""

/-- Capability model of the persistent authorization-code client returned
by `_credentials_access.get_client`: `access_token` is the token its
credentials currently hold, `refreshed_token` the token held after
`refresh_access_token()`, and `interactive_token` the token held after
`start_authorization_flow()`.  Its `clear()` call mutates only this
external object, never the `ClientState`. -/
structure AuthzClient where
  has_valid_credentials : Bool
  access_token : String
  can_refresh_token : Bool
  refreshed_token : String
  interactive_token : String
  deriving DecidableEq, Repr

/-- The message of the `ValueError` raised by the standard and basic
strategies when the Admin-advertised metadata is absent (abridged from the
source text). -/
def adminAbsentMsg : String :=
  "Raw Flyte client attempting client credentials flow but no response from Admin detected."

/-- `_refresh_credentials_standard`.  Faithful to the source order: the
first line reads `flyte_client.public_client_config.authorization_metadata_key`,
so when `public_client_config` is `None` an `AttributeError` is raised
before the `ValueError` guard is reached.  Inside the guard, a present
proto message is always truthy, so the guard reduces to
`oauth2_metadata` being `None`. -/
def refresh_credentials_standard
    (get_client : String → String → List String → String → String → AuthzClient)
    (flyte_client : ClientState) : Except PyError ClientState :=
  match flyte_client.public_client_config with
  | none =>
    Except.error (PyError.attributeError
      "NoneType object has no attribute authorization_metadata_key")
  | some pcc =>
    let authorization_header_key :=
      if pcc.authorization_metadata_key = "" then none
      else some pcc.authorization_metadata_key
    match flyte_client.oauth2_metadata with
    | none => Except.error (PyError.valueError adminAbsentMsg)
    | some om =>
      let client := get_client pcc.redirect_uri pcc.client_id pcc.scopes
        om.authorization_endpoint om.token_endpoint
      if client.has_valid_credentials
          && !(check_access_token flyte_client client.access_token) then
        Except.ok (set_access_token flyte_client client.access_token authorization_header_key)
      else if client.can_refresh_token then
        Except.ok (set_access_token flyte_client client.refreshed_token authorization_header_key)
      else
        Except.ok (set_access_token flyte_client client.interactive_token authorization_header_key)

/-- The base64 alphabet. -/
def base64Alphabet : List Char :=
  "ABCDEFGHIJKLMNOPQRSTUVWXYZabcdefghijklmnopqrstuvwxyz0123456789+/".data

/-- The base64 digit for a 6-bit value. -/
def b64char (n : Nat) : Char := base64Alphabet.getD n 'A'

/-- Standard base64 encoding (with `=` padding) of a byte list, as
performed by `base64.b64encode`. -/
def base64EncodeBytes : List Nat → List Char
  | [] => []
  | [a] => [b64char (a / 4), b64char (a % 4 * 16), '=', '=']
  | [a, b] => [b64char (a / 4), b64char (a % 4 * 16 + b / 16), b64char (b % 16 * 4), '=']
  | a :: b :: c :: rest =>
    b64char (a / 4) :: b64char (a % 4 * 16 + b / 16) :: b64char (b % 16 * 4 + c / 64) ::
      b64char (c % 64) :: base64EncodeBytes rest

/-- UTF-8 encoding of one character, as `str.encode("utf-8")` produces. -/
def utf8Char (c : Char) : List Nat :=
  let n := c.toNat
  if n < 128 then [n]
  else if n < 2048 then [192 + n / 64, 128 + n % 64]
  else if n < 65536 then [224 + n / 4096, 128 + n / 64 % 64, 128 + n % 64]
  else [240 + n / 262144, 128 + n / 4096 % 64, 128 + n / 64 % 64, 128 + n % 64]

/-- UTF-8 encoding of a string as a byte list. -/
def utf8Encode (s : String) : List Nat := (s.data.map utf8Char).flatten

/-- `get_basic_authorization_header`: joins id and secret with `:`,
base64-encodes the UTF-8 bytes, and prepends `"Basic "`. -/
def get_basic_authorization_header (client_id client_secret : String) : String :=
  let concated := client_id ++ ":" ++ client_secret
  "Basic " ++ String.mk (base64EncodeBytes (utf8Encode concated))

/-- The token-endpoint HTTP response observed by `get_token`: the status
code and the `access_token` / `expires_in` fields of the JSON body. -/
structure TokenResponse where
  status_code : Nat
  access_token : String
  expires_in : Nat
  deriving DecidableEq, Repr

/-- `get_token`: POSTs to the token endpoint (the HTTP exchange is the
`post` parameter, applied to endpoint, authorization header and scope) and
raises `FlyteAuthenticationException` on any non-200 status, else returns
the access token and expiry. -/
def get_token (post : String → String → String → TokenResponse)
    (token_endpoint authorization_header scope : String) : Except PyError (String × Nat) :=
  let response := post token_endpoint authorization_header scope
  if response.status_code ≠ 200 then
    Except.error (PyError.flyteAuthenticationException "Non-200 received from IDP")
  else
    Except.ok (response.access_token, response.expires_in)

/-- `get_secret`: returns the configured secret when it is truthy (present
and non-empty), else raises `FlyteAuthenticationException`. -/
def get_secret (credentials_secret : Option String) : Except PyError String :=
  match credentials_secret with
  | some secret =>
    if secret = "" then
      Except.error (PyError.flyteAuthenticationException "No secret could be found")
    else
      Except.ok secret
  | none => Except.error (PyError.flyteAuthenticationException "No secret could be found")

/-- `_refresh_credentials_basic`.  `config_scopes` models
`creds_config.SCOPES.get()` with `[]` for an unset/empty value (which is
falsy in Python, falling back to the public client config scopes);
`credentials_secret` models `CLIENT_CREDENTIALS_SECRET.get()`;
`client_id` models `CLIENT_ID.get()`. -/
def refresh_credentials_basic (post : String → String → String → TokenResponse)
    (credentials_secret : Option String) (config_scopes : List String) (client_id : String)
    (flyte_client : ClientState) : Except PyError ClientState :=
  match flyte_client.oauth2_metadata, flyte_client.public_client_config with
  | some om, some pcc =>
    let token_endpoint := om.token_endpoint
    let scopes := String.intercalate ","
      (if config_scopes = [] then pcc.scopes else config_scopes)
    match get_secret credentials_secret with
    | Except.error e => Except.error e
    | Except.ok client_secret =>
      let authorization_header := get_basic_authorization_header client_id client_secret
      match get_token post token_endpoint authorization_header scopes with
      | Except.error e => Except.error e
      | Except.ok tokenPair =>
        let authorization_header_key :=
          if pcc.authorization_metadata_key = "" then none
          else some pcc.authorization_metadata_key
        Except.ok (set_access_token flyte_client tokenPair.1 authorization_header_key)
  | _, _ => Except.error (PyError.valueError adminAbsentMsg)

/-- `_refresh_credentials_from_command`: `command_result` models the
`subprocess.run(command, capture_output=True, text=True, check=True)`
outcome, `Except.ok stdout` for exit status 0 and `Except.error e` for the
`CalledProcessError` text.  On success the stripped standard output is
stored via `set_access_token` with its default header key
`"authorization"`. -/
def refresh_credentials_from_command (command_result : Except String String)
    (flyte_client : ClientState) : Except PyError ClientState :=
  match command_result with
  | Except.error e =>
    Except.error (PyError.flyteAuthenticationException
      ("Problems refreshing token with command: " ++ e))
  | Except.ok stdout =>
    Except.ok (set_access_token flyte_client stdout.trim (some "authorization"))

/-- `_refresh_credentials_noop`: does nothing. -/
def refresh_credentials_noop (flyte_client : ClientState) : Except PyError ClientState :=
  Except.ok flyte_client

/-- Tags naming the three refresh handlers `_get_refresh_handler` can
return: `standard ↦ _refresh_credentials_standard`,
`basic ↦ _refresh_credentials_basic`,
`from_command ↦ _refresh_credentials_from_command`
(interpreted by `runRefreshHandler`). -/
inductive RefreshHandler
  | standard
  | basic
  | from_command
  deriving DecidableEq, Repr

/-- `_get_refresh_handler`: the if/elif chain mapping the configured auth
mode to a handler, raising `ValueError` for any other mode. -/
def get_refresh_handler (auth_mode : String) : Except PyError RefreshHandler :=
  if auth_mode = "standard" then Except.ok RefreshHandler.standard
  else if auth_mode = "basic" ∨ auth_mode = "client_credentials" then
    Except.ok RefreshHandler.basic
  else if auth_mode = "external_process" then Except.ok RefreshHandler.from_command
  else
    Except.error (PyError.valueError
      ("Invalid auth mode [" ++ auth_mode ++
        "] specified. Please update the creds config to use a valid value"))

/-- The external inputs a refresh handler invocation can consult: the
configured auth mode, the interactive authorization client factory, the
HTTP POST capability, and the configuration values read via `.get()`. -/
structure Env where
  authMode : String
  get_client : String → String → List String → String → String → AuthzClient
  post : String → String → String → TokenResponse
  credentials_secret : Option String
  config_scopes : List String
  client_id : String
  command_result : Except String String

/-- Interprets a selected handler tag as the corresponding strategy
function applied to the client state. -/
def runRefreshHandler : RefreshHandler → Env → ClientState → Except PyError ClientState
  | RefreshHandler.standard, env, st => refresh_credentials_standard env.get_client st
  | RefreshHandler.basic, env, st =>
    refresh_credentials_basic env.post env.credentials_secret env.config_scopes env.client_id st
  | RefreshHandler.from_command, env, st => refresh_credentials_from_command env.command_result st

/-- The observable effects of one wrapped call: how many times the
underlying RPC was invoked, how many times a refresh handler was invoked,
and the backoff sleeps (in milliseconds, in order). -/
structure Trace where
  calls : Nat
  refreshes : Nat
  sleeps : List Nat
  deriving DecidableEq, Repr

/-- What a call wrapped by `_handle_rpc_error` can do: return a value, or
raise `FlyteAuthenticationException` (wrapping `str(e)` of the final
UNAUTHENTICATED failure), `FlyteEntityAlreadyExistsException`,
`FlyteEntityNotExistException`, the original `RpcError`, or an exception
escaping from the refresh machinery.  `fellThrough` marks the (unreachable)
implicit `None` after the `for` loop. -/
inductive WrapOutcome (α : Type)
  | ok (a : α)
  | flyteAuthentication (e : RpcErr)
  | entityAlreadyExists (e : RpcErr)
  | entityNotExist (e : RpcErr)
  | rpcError (e : RpcErr)
  | raised (e : PyError)
  | fellThrough
  deriving DecidableEq, Repr

/-- `max_retries = 3` in `_handle_rpc_error`. -/
def max_retries : Nat := 3

/-- `max_wait_time = 1000` in `_handle_rpc_error`. -/
def max_wait_time : Nat := 1000

/-- The `for i in range(max_retries)` loop body of `_handle_rpc_error`,
from attempt `i` with `fuel` iterations left (`fuel = max_retries - i`),
threading the client state through refreshes and accumulating the trace.
`script j` is the result of the j-th invocation of the wrapped callable. -/
def handleRpcErrorFrom {α : Type} (retry : Bool) (env : Env)
    (script : Nat → Except RpcErr α) :
    Nat → Nat → ClientState → WrapOutcome α × ClientState × Trace
  | _, 0, st => (WrapOutcome.fellThrough, st, ⟨0, 0, []⟩)
  | i, fuel + 1, st =>
    match script i with
    | Except.ok a => (WrapOutcome.ok a, st, ⟨1, 0, []⟩)
    | Except.error e =>
      if e.code = StatusCode.UNAUTHENTICATED then
        if i = max_retries - 1 then
          (WrapOutcome.flyteAuthentication e, st, ⟨1, 0, []⟩)
        else
          match get_refresh_handler env.authMode with
          | Except.error pe => (WrapOutcome.raised pe, st, ⟨1, 0, []⟩)
          | Except.ok h =>
            match runRefreshHandler h env st with
            | Except.error pe => (WrapOutcome.raised pe, st, ⟨1, 1, []⟩)
            | Except.ok st1 =>
              let r := handleRpcErrorFrom retry env script (i + 1) fuel st1
              (r.1, r.2.1, ⟨r.2.2.calls + 1, r.2.2.refreshes + 1, r.2.2.sleeps⟩)
      else if e.code = StatusCode.ALREADY_EXISTS then
        (WrapOutcome.entityAlreadyExists e, st, ⟨1, 0, []⟩)
      else if e.code = StatusCode.NOT_FOUND then
        (WrapOutcome.entityNotExist e, st, ⟨1, 0, []⟩)
      else if retry = false ∨ i = max_retries - 1 then
        (WrapOutcome.rpcError e, st, ⟨1, 0, []⟩)
      else
        let wait_time := min (200 * 2 ^ i) max_wait_time
        let r := handleRpcErrorFrom retry env script (i + 1) fuel st
        (r.1, r.2.1, ⟨r.2.2.calls + 1, r.2.2.refreshes, wait_time :: r.2.2.sleeps⟩)

/-- `_handle_rpc_error(retry)` applied to one wrapped call. -/
def handle_rpc_error {α : Type} (retry : Bool) (env : Env)
    (script : Nat → Except RpcErr α) (st : ClientState) :
    WrapOutcome α × ClientState × Trace :=
  handleRpcErrorFrom retry env script 0 max_retries st

/-- `_handle_invalid_create_request` applied to one attempt result: the
Python handler calls `fn(self, create_request)` without returning its
value (so the wrapped call yields `None` on success), logs the request
body on `INVALID_ARGUMENT`, and re-raises any `RpcError` unchanged. -/
def handle_invalid_create_request {β : Type} (result : Except RpcErr β) :
    Except RpcErr (Option β) :=
  match result with
  | Except.ok _ => Except.ok none
  | Except.error e => Except.error e

/-- `create_task`: decorated `@_handle_rpc_error()` (retry disabled) over
`@_handle_invalid_create_request` over the stub call. -/
def create_task {β : Type} (env : Env) (script : Nat → Except RpcErr β)
    (st : ClientState) : WrapOutcome (Option β) × ClientState × Trace :=
  handle_rpc_error false env (fun i => handle_invalid_create_request (script i)) st

/-- `create_workflow`: same decoration as `create_task`. -/
def create_workflow {β : Type} (env : Env) (script : Nat → Except RpcErr β)
    (st : ClientState) : WrapOutcome (Option β) × ClientState × Trace :=
  handle_rpc_error false env (fun i => handle_invalid_create_request (script i)) st

/-- `create_launch_plan`: same decoration as `create_task`. -/
def create_launch_plan {β : Type} (env : Env) (script : Nat → Except RpcErr β)
    (st : ClientState) : WrapOutcome (Option β) × ClientState × Trace :=
  handle_rpc_error false env (fun i => handle_invalid_create_request (script i)) st

/-- `get_task`: decorated `@_handle_rpc_error(retry=True)` over the stub
call, returning the stub response unmodified on success. -/
def get_task {β : Type} (env : Env) (script : Nat → Except RpcErr β)
    (st : ClientState) : WrapOutcome β × ClientState × Trace :=
  handle_rpc_error true env script st

/-- `list_tasks_paginated`: decorated `@_handle_rpc_error(retry=True)`. -/
def list_tasks_paginated {β : Type} (env : Env) (script : Nat → Except RpcErr β)
    (st : ClientState) : WrapOutcome β × ClientState × Trace :=
  handle_rpc_error true env script st

/-- A freshly constructed client whose two metadata fetches failed and on
which `set_access_token` has never been called. -/
def emptyClient : ClientState := ⟨none, none, none⟩

/-- Concrete public client config used in witnesses. -/
def pccW : PublicClientConfig := ⟨"", "http://localhost/callback", "client123", ["all"]⟩

/-- Concrete OAuth2 metadata used in witnesses. -/
def omW : OAuth2Metadata := ⟨"https://idp/authorize", "https://idp/token"⟩

/-- Concrete interactive authorization client used in witnesses. -/
def clientW : AuthzClient := ⟨false, "", false, "", ""⟩

/-- Concrete authorization client factory used in witnesses. -/
def getClientW : String → String → List String → String → String → AuthzClient :=
  fun _ _ _ _ _ => clientW

/-- Concrete token endpoint that always answers HTTP 500. -/
def postW : String → String → String → TokenResponse := fun _ _ _ => ⟨500, "", 0⟩

/-- Concrete environment: external-process auth mode whose command
succeeds, so every refresh invocation succeeds. -/
def envW : Env := ⟨"external_process", getClientW, postW, none, [], "", Except.ok "tok"⟩

/-- Concrete attempt script: one UNAUTHENTICATED failure, then success. -/
def scriptC1W : Nat → Except RpcErr Nat := fun j =>
  if j = 0 then Except.error ⟨StatusCode.UNAUTHENTICATED, "boom"⟩ else Except.ok 7

/-! ## Helper lemmas -/

theorem isPrefixOf_append_self (p t : List Char) : p.isPrefixOf (p ++ t) = true := by
  induction p with
  | nil => simp [List.isPrefixOf]
  | cons a ps ih => simp [List.isPrefixOf, ih]

theorem replaceSkip_length_append (p : Char) (ps rep : List Char) :
    ∀ u t : List Char, replaceSkip p ps rep u.length (u ++ t) = replaceSkip p ps rep 0 t := by
  intro u
  induction u with
  | nil => intro t; rfl
  | cons a us ih =>
    intro t
    simp only [List.cons_append, List.length_cons, replaceSkip]
    exact ih t

theorem replaceSkip_append (p : Char) (ps rep t : List Char) :
    replaceSkip p ps rep 0 (p :: (ps ++ t)) = rep ++ replaceSkip p ps rep 0 t := by
  rw [replaceSkip, if_pos]
  · rw [replaceSkip_length_append]
  · have h := isPrefixOf_append_self (p :: ps) t
    simp only [List.cons_append] at h
    exact h

theorem replaceSkip_of_not_contains (p : Char) (ps rep : List Char) :
    ∀ s : List Char, containsSub (p :: ps) s = false → replaceSkip p ps rep 0 s = s := by
  intro s
  induction s with
  | nil => intro _; rfl
  | cons c cs ih =>
    intro h
    rw [containsSub, Bool.or_eq_false_iff] at h
    rw [replaceSkip, if_neg]
    · rw [ih h.2]
    · simp [h.1]

theorem pyReplace_bearer_def (s : String) :
    pyReplace s "Bearer " "" = String.mk (replaceSkip 'B' "earer ".data [] 0 s.data) := rfl

theorem pyReplace_bearer_append (t : String) :
    pyReplace ("Bearer " ++ t) "Bearer " "" = pyReplace t "Bearer " "" := by
  rw [pyReplace_bearer_def, pyReplace_bearer_def]
  have h : ("Bearer " ++ t).data = 'B' :: ("earer ".data ++ t.data) := rfl
  rw [h, replaceSkip_append, List.nil_append]

theorem pyReplace_bearer_eq_self (t : String) (h : hasSub t "Bearer " = false) :
    pyReplace t "Bearer " "" = t := by
  rw [pyReplace_bearer_def, replaceSkip_of_not_contains 'B' "earer ".data [] t.data h]

/-! ## Claim theorems -/

/-- C1: for every wrapped RPC call, if the underlying invocation raises an
UNAUTHENTICATED failure on each of the first `n` attempts
(`n < max_retries - 1`, `max_retries = 3`) and then succeeds, the wrapper
returns the success result and invokes the refresh handler selected for
the configured auth mode exactly `n` times with no inter-attempt delay;
and if all `max_retries` attempts fail UNAUTHENTICATED, the wrapper raises
`FlyteAuthenticationException` wrapping the final failure after exactly
`max_retries - 1` refresh invocations. -/
theorem claim_C1 {α : Type} (retry : Bool) (env : Env) (h : RefreshHandler)
    (hsel : get_refresh_handler env.authMode = Except.ok h)
    (hrefresh : ∀ s, ∃ s1, runRefreshHandler h env s = Except.ok s1) :
    (∀ (n : Nat) (script : Nat → Except RpcErr α) (st : ClientState) (a : α),
      n < max_retries - 1 →
      (∀ j, j < n → ∃ m, script j = Except.error ⟨StatusCode.UNAUTHENTICATED, m⟩) →
      script n = Except.ok a →
      ∃ st1, handle_rpc_error retry env script st =
        (WrapOutcome.ok a, st1, ⟨n + 1, n, []⟩)) ∧
    (∀ (script : Nat → Except RpcErr α) (st : ClientState) (e : Nat → RpcErr),
      (∀ j, j < max_retries → script j = Except.error (e j)) →
      (∀ j, j < max_retries → (e j).code = StatusCode.UNAUTHENTICATED) →
      ∃ st1, handle_rpc_error retry env script st =
        (WrapOutcome.flyteAuthentication (e (max_retries - 1)), st1,
          ⟨max_retries, max_retries - 1, []⟩)) := by
  constructor
  · intro n script st a hn hfail hsucc
    have hn2 : n < 2 := hn
    interval_cases n
    · exact ⟨st, by simp [handle_rpc_error, handleRpcErrorFrom, hsucc, max_retries]⟩
    · obtain ⟨m0, hm0⟩ := hfail 0 (by omega)
      obtain ⟨st1, hst1⟩ := hrefresh st
      exact ⟨st1, by
        simp [handle_rpc_error, handleRpcErrorFrom, hm0, hsucc, hsel, hst1, max_retries]⟩
  · intro script st e hfail hcode
    obtain ⟨st1, hst1⟩ := hrefresh st
    obtain ⟨st2, hst2⟩ := hrefresh st1
    refine ⟨st2, ?_⟩
    simp [handle_rpc_error, handleRpcErrorFrom, hfail 0 (by decide), hfail 1 (by decide),
      hfail 2 (by decide), hcode 0 (by decide), hcode 1 (by decide), hcode 2 (by decide),
      hsel, hst1, hst2, max_retries]

/-- C1 witness: concrete run of the wrapper with one UNAUTHENTICATED
failure then success, under the external-process auth mode whose command
succeeds: the call returns 7 after exactly one refresh and no sleep. -/
theorem claim_C1_witness :
    ∃ st1, handle_rpc_error false envW scriptC1W emptyClient =
      (WrapOutcome.ok 7, st1, ⟨1 + 1, 1, []⟩) :=
  (claim_C1 false envW RefreshHandler.from_command rfl
      (fun s => ⟨_, rfl⟩)).1
    1 scriptC1W emptyClient 7 (by decide)
    (fun j hj => by interval_cases j; exact ⟨"boom", rfl⟩) rfl

/-- C2: a first-attempt failure with code ALREADY_EXISTS raises
`FlyteEntityAlreadyExistsException` immediately, and one with NOT_FOUND
raises `FlyteEntityNotExistException` immediately, for either value of
`retry`, with exactly one underlying invocation, no refresh, no sleep, and
the client state unchanged. -/
theorem claim_C2 {α : Type} (retry : Bool) (env : Env) (script : Nat → Except RpcErr α)
    (st : ClientState) (e : RpcErr) (h0 : script 0 = Except.error e) :
    (e.code = StatusCode.ALREADY_EXISTS →
      handle_rpc_error retry env script st =
        (WrapOutcome.entityAlreadyExists e, st, ⟨1, 0, []⟩)) ∧
    (e.code = StatusCode.NOT_FOUND →
      handle_rpc_error retry env script st =
        (WrapOutcome.entityNotExist e, st, ⟨1, 0, []⟩)) := by
  constructor <;> intro hc <;>
    simp [handle_rpc_error, handleRpcErrorFrom, h0, hc, max_retries]

/-- C2 witness: a concrete ALREADY_EXISTS failure on a retry-enabled
operation raises immediately after a single invocation. -/
theorem claim_C2_witness :
    handle_rpc_error true envW
        (fun _ => (Except.error ⟨StatusCode.ALREADY_EXISTS, "dup"⟩ : Except RpcErr Nat))
        emptyClient =
      (WrapOutcome.entityAlreadyExists ⟨StatusCode.ALREADY_EXISTS, "dup"⟩, emptyClient,
        ⟨1, 0, []⟩) :=
  (claim_C2 true envW _ emptyClient ⟨StatusCode.ALREADY_EXISTS, "dup"⟩ rfl).1 rfl

/-- C3: for failures whose code is none of UNAUTHENTICATED,
ALREADY_EXISTS, NOT_FOUND: with `retry = false` the original failure is
re-raised on the first attempt with zero delay; with `retry = true` the
failure sequence [OTHER, OTHER, SUCCESS] sleeps 200ms then 400ms and
returns the success result; and with `retry = true` and failures on all
`max_retries` attempts the final failure is re-raised unchanged after the
same two backoff sleeps. -/
theorem claim_C3 {α : Type} (env : Env) :
    (∀ (script : Nat → Except RpcErr α) (st : ClientState) (e : RpcErr),
      script 0 = Except.error e →
      e.code ≠ StatusCode.UNAUTHENTICATED →
      e.code ≠ StatusCode.ALREADY_EXISTS →
      e.code ≠ StatusCode.NOT_FOUND →
      handle_rpc_error false env script st = (WrapOutcome.rpcError e, st, ⟨1, 0, []⟩)) ∧
    (∀ (script : Nat → Except RpcErr α) (st : ClientState) (e0 e1 : RpcErr) (a : α),
      script 0 = Except.error e0 → script 1 = Except.error e1 → script 2 = Except.ok a →
      e0.code ≠ StatusCode.UNAUTHENTICATED →
      e0.code ≠ StatusCode.ALREADY_EXISTS →
      e0.code ≠ StatusCode.NOT_FOUND →
      e1.code ≠ StatusCode.UNAUTHENTICATED →
      e1.code ≠ StatusCode.ALREADY_EXISTS →
      e1.code ≠ StatusCode.NOT_FOUND →
      handle_rpc_error true env script st = (WrapOutcome.ok a, st, ⟨3, 0, [200, 400]⟩)) ∧
    (∀ (script : Nat → Except RpcErr α) (st : ClientState) (e : Nat → RpcErr),
      (∀ j, j < max_retries → script j = Except.error (e j)) →
      (∀ j, j < max_retries →
        (e j).code ≠ StatusCode.UNAUTHENTICATED ∧
        (e j).code ≠ StatusCode.ALREADY_EXISTS ∧
        (e j).code ≠ StatusCode.NOT_FOUND) →
      handle_rpc_error true env script st =
        (WrapOutcome.rpcError (e (max_retries - 1)), st, ⟨3, 0, [200, 400]⟩)) := by
  refine ⟨?_, ?_, ?_⟩
  · intro script st e h0 hne1 hne2 hne3
    simp [handle_rpc_error, handleRpcErrorFrom, h0, hne1, hne2, hne3, max_retries]
  · intro script st e0 e1 a h0 h1 h2 h01 h02 h03 h11 h12 h13
    simp [handle_rpc_error, handleRpcErrorFrom, h0, h1, h2, h01, h02, h03, h11, h12, h13,
      max_retries, max_wait_time, Nat.min_def]
  · intro script st e hfail hcode
    obtain ⟨a1, a2, a3⟩ := hcode 0 (by decide)
    obtain ⟨b1, b2, b3⟩ := hcode 1 (by decide)
    obtain ⟨c1, c2, c3⟩ := hcode 2 (by decide)
    simp [handle_rpc_error, handleRpcErrorFrom, hfail 0 (by decide), hfail 1 (by decide),
      hfail 2 (by decide), a1, a2, a3, b1, b2, b3, c1, c2, c3,
      max_retries, max_wait_time, Nat.min_def]

/-- C3 witness: a concrete retry-enabled run with failure sequence
[INTERNAL, INTERNAL, SUCCESS] sleeps 200ms then 400ms and returns 5. -/
theorem claim_C3_witness :
    handle_rpc_error true envW
        (fun j => if j < 2 then Except.error ⟨StatusCode.INTERNAL, "t"⟩
                  else (Except.ok 5 : Except RpcErr Nat))
        emptyClient =
      (WrapOutcome.ok 5, emptyClient, ⟨3, 0, [200, 400]⟩) :=
  (claim_C3 envW).2.1 _ emptyClient ⟨StatusCode.INTERNAL, "t"⟩ ⟨StatusCode.INTERNAL, "t"⟩ 5
    rfl rfl rfl (by decide) (by decide) (by decide) (by decide) (by decide) (by decide)

/-- C4 (evaluation of the code at the failing input): when
`public_client_config` is absent the standard strategy raises
`AttributeError` from the field access on its first line, not the
configuration `ValueError` the claim describes; when it is present and
`oauth2_metadata` is absent, the configuration `ValueError` is raised.  In
both cases the strategy produces no new state, so Credentials is
unchanged. -/
theorem claim_C4 :
    refresh_credentials_standard getClientW ⟨none, some omW, none⟩ =
      Except.error (PyError.attributeError
        "NoneType object has no attribute authorization_metadata_key") ∧
    refresh_credentials_standard getClientW ⟨some pccW, none, none⟩ =
      Except.error (PyError.valueError adminAbsentMsg) :=
  ⟨rfl, rfl⟩

/-- C5 (evaluation of the code at the failing input): on a successful
underlying stub invocation, the retry-wrapped `get_task` returns the stub
response unmodified, but `create_task` (whose inner
`_handle_invalid_create_request` decorator discards the return value of
the wrapped function) returns `None` instead of the stub response. -/
theorem claim_C5 :
    get_task envW (fun _ => Except.ok (42 : Nat)) emptyClient =
      (WrapOutcome.ok 42, emptyClient, ⟨1, 0, []⟩) ∧
    create_task envW (fun _ => Except.ok (42 : Nat)) emptyClient =
      (WrapOutcome.ok none, emptyClient, ⟨1, 0, []⟩) :=
  ⟨rfl, rfl⟩

/-- C6 (evaluation of the code at the failing input): `set_access_token`
stores the header key exactly as passed, so a mixed-case key
`"Authorization"` is stored verbatim and not lower-cased. -/
theorem claim_C6 :
    (set_access_token emptyClient "tok" (some "Authorization")).metadata =
      some (some "Authorization", "Bearer tok") ∧
    (set_access_token emptyClient "tok" (some "Authorization")).metadata ≠
      some (some "authorization", "Bearer tok") := by
  exact ⟨rfl, by decide⟩

/-- C7 counterexample: after `set_access_token` with the token
`"Bearer x"`, `check_access_token` applied to that very token returns
`false`, because the comparison strips every occurrence of `"Bearer "`
from the stored header value — refuting the claim that `hasToken(c)` is
true exactly when `c` equals the token that was set. -/
theorem claim_C7_counterexample :
    check_access_token (set_access_token emptyClient "Bearer x" (some "authorization"))
      "Bearer x" = false := by
  decide

/-- C7 (amended): `check_access_token` returns false while no token is
stored; after `set_access_token(t)` it answers true exactly on the string
obtained from `t` by removing every occurrence of `"Bearer "` — hence,
for every token `t` that does not contain `"Bearer "` as a substring,
true exactly on `c = t`. -/
theorem claim_C7 :
    (∀ (st : ClientState) (c : String), st.metadata = none →
      check_access_token st c = false) ∧
    (∀ (st : ClientState) (t : String) (key : Option String) (c : String),
      check_access_token (set_access_token st t key) c =
        (c == pyReplace t "Bearer " "")) ∧
    (∀ (st : ClientState) (t : String) (key : Option String) (c : String),
      hasSub t "Bearer " = false →
      (check_access_token (set_access_token st t key) c = true ↔ c = t)) := by
  refine ⟨?_, ?_, ?_⟩
  · intro st c hmd
    simp [check_access_token, hmd]
  · intro st t key c
    simp only [check_access_token, set_access_token]
    rw [pyReplace_bearer_append]
  · intro st t key c h
    simp only [check_access_token, set_access_token]
    rw [pyReplace_bearer_append, pyReplace_bearer_eq_self t h]
    simp

/-- C7 witness: storing the token `"abc"` makes `check_access_token`
answer true on `"abc"`, and with no token stored it answers false. -/
theorem claim_C7_witness :
    (check_access_token (set_access_token emptyClient "abc" (some "authorization")) "abc" =
        true ↔ "abc" = "abc") ∧
    check_access_token emptyClient "xyz" = false :=
  ⟨claim_C7.2.2 emptyClient "abc" (some "authorization") "abc" (by decide),
   claim_C7.1 emptyClient "xyz" rfl⟩

/-- C8: the strategy selector maps "standard" to the interactive
cached-token strategy, both "basic" and "client_credentials" to the same
direct-secret strategy, "external_process" to the external-command
strategy (each tag interpreted by `runRefreshHandler` as the
corresponding strategy function), and raises `ValueError` for every other
mode string. -/
theorem claim_C8 :
    get_refresh_handler "standard" = Except.ok RefreshHandler.standard ∧
    get_refresh_handler "basic" = Except.ok RefreshHandler.basic ∧
    get_refresh_handler "client_credentials" = Except.ok RefreshHandler.basic ∧
    get_refresh_handler "external_process" = Except.ok RefreshHandler.from_command ∧
    (∀ env st, runRefreshHandler RefreshHandler.standard env st =
      refresh_credentials_standard env.get_client st) ∧
    (∀ env st, runRefreshHandler RefreshHandler.basic env st =
      refresh_credentials_basic env.post env.credentials_secret env.config_scopes
        env.client_id st) ∧
    (∀ env st, runRefreshHandler RefreshHandler.from_command env st =
      refresh_credentials_from_command env.command_result st) ∧
    (∀ m : String, m ≠ "standard" → m ≠ "basic" → m ≠ "client_credentials" →
      m ≠ "external_process" →
      get_refresh_handler m = Except.error (PyError.valueError
        ("Invalid auth mode [" ++ m ++
          "] specified. Please update the creds config to use a valid value"))) := by
  refine ⟨rfl, rfl, rfl, rfl, fun env st => rfl, fun env st => rfl, fun env st => rfl, ?_⟩
  intro m h1 h2 h3 h4
  simp [get_refresh_handler, h1, h2, h3, h4]

/-- C8 witness: the unrecognized mode "none" is rejected with
`ValueError`. -/
theorem claim_C8_witness :
    get_refresh_handler "none" = Except.error (PyError.valueError
      ("Invalid auth mode [" ++ "none" ++
        "] specified. Please update the creds config to use a valid value")) :=
  claim_C8.2.2.2.2.2.2.2 "none" (by decide) (by decide) (by decide) (by decide)

/-- C9: the basic-auth header for client id "cid" and secret "sec" is
exactly "Basic " followed by the base64 encoding of "cid:sec"; and when
the token endpoint answers requests with any non-200 status, the
direct-secret strategy raises `FlyteAuthenticationException` and produces
no new client state, leaving Credentials unchanged. -/
theorem claim_C9 :
    get_basic_authorization_header "cid" "sec" = "Basic Y2lkOnNlYw==" ∧
    (∀ (post : String → String → String → TokenResponse)
      (credentials_secret : Option String) (config_scopes : List String)
      (client_id : String) (st : ClientState) (om : OAuth2Metadata)
      (pcc : PublicClientConfig) (s : String),
      st.oauth2_metadata = some om → st.public_client_config = some pcc →
      credentials_secret = some s → s ≠ "" →
      (∀ ep hd sc, (post ep hd sc).status_code ≠ 200) →
      refresh_credentials_basic post credentials_secret config_scopes client_id st =
        Except.error (PyError.flyteAuthenticationException "Non-200 received from IDP")) := by
  constructor
  · rfl
  · intro post cs sc cid st om pcc s hom hpcc hsec hne hpost
    simp [refresh_credentials_basic, hom, hpcc, hsec, hne, get_secret, get_token, hpost]

/-- C9 witness: a concrete client with both metadata responses present, a
configured secret, and a token endpoint answering 500 gets an
authentication error from the direct-secret strategy. -/
theorem claim_C9_witness :
    refresh_credentials_basic postW (some "sec") [] "cid" ⟨some pccW, some omW, none⟩ =
      Except.error (PyError.flyteAuthenticationException "Non-200 received from IDP") :=
  claim_C9.2 postW (some "sec") [] "cid" ⟨some pccW, some omW, none⟩ omW pccW "sec"
    rfl rfl rfl (by decide) (fun _ _ _ => (by decide : (500 : Nat) ≠ 200))

/-- C10: on a zero-exit command run, the external-command strategy stores
the trimmed standard output as the token under the literal header key
"authorization", for every client state — in particular it needs neither
`public_client_config` nor `oauth2_metadata` and never consults
`authorization_metadata_key`. -/
theorem claim_C10 :
    ∀ (pcc : Option PublicClientConfig) (om : Option OAuth2Metadata)
      (md : Option (Option String × String)) (out : String),
      refresh_credentials_from_command (Except.ok out) ⟨pcc, om, md⟩ =
        Except.ok ⟨pcc, om, some (some "authorization", "Bearer " ++ out.trim)⟩ := by
  intro pcc om md out
  rfl

end FlytekitRaw
